import Mathlib

/-!
Verification development for the Newphoria classification pipeline
(`scripts/classify.mjs`) and the Supabase schema views (`sql/schema.sql`).

The pipeline is embedded shallowly: every external effect is passed in as
explicit data.

* The classification oracle response for a chunk is an
  `Except String (List OracleObj)`: `Except.error` stands for a thrown
  error (network failure or `JSON.parse` failure on a response that is not
  parseable JSON), `Except.ok cls` for a successfully parsed JSON array.
* The article store is a `List Article`; the unique constraint on
  `articles.source_url` is modelled inside `storeArticle`.
* `Date.now()` is a parameter `now : Int` (milliseconds).
* JavaScript `||` defaulting on possibly-absent JSON fields is modelled by
  the `jsOr*` helpers, which reproduce JS falsiness (absent value, `0`,
  empty string, `false` are falsy; an empty array is truthy).

Audit-only fields `raw_ai_response` and `classified_at` are carried by the
source code into the stored record but are never read by any later code,
view, or claim; they are omitted from the embedding.  Storage failures
other than the unique-constraint conflict (code `23505`) and thrown
top-level exceptions have no model; they are the only writers of
`stats.errors`, so in the pure model `stats.errors` is always `[]`, exactly
as in any run of the source in which the store accepts every insert.
-/

namespace Newphoria

/-- JS truthiness of a possibly-absent string (`undefined`, `null` and `""`
are falsy). -/
def strTruthy : Option String → Bool
  | none => false
  | some s => !(s == "")

/-- JS `x || d` for a possibly-absent integer field (`0` is falsy). -/
def jsOrInt (v : Option Int) (d : Int) : Int :=
  match v with
  | some x => if x == 0 then d else x
  | none => d

/-- JS `x || d` for a possibly-absent string field with a string default
(`""` is falsy). -/
def jsOrStr (v : Option String) (d : String) : String :=
  match v with
  | some s => if s == "" then d else s
  | none => d

/-- JS `x || d` for a possibly-absent string field whose default is itself
possibly absent (used for `summary || article.excerpt`). -/
def jsOrOptStr (v : Option String) (d : Option String) : Option String :=
  match v with
  | some s => if s == "" then d else some s
  | none => d

/-- JS `x || false` for a possibly-absent boolean field. -/
def jsOrBool (v : Option Bool) (d : Bool) : Bool :=
  match v with
  | some b => if b then b else d
  | none => d

/-- JS `x || d` for a possibly-absent rational field (`0` is falsy). -/
def jsOrQ (v : Option ℚ) (d : ℚ) : ℚ :=
  match v with
  | some x => if x == 0 then d else x
  | none => d

/-- The `config` object of `classify.mjs` (the fields the core logic
reads). -/
structure Config where
  batch_size : Nat
  max_articles : Nat
  min_bloom_score : Int
deriving DecidableEq, Repr

def config : Config := { batch_size := 10, max_articles := 200, min_bloom_score := 3 }

/-- A normalized item as emitted by a source adapter (the common shape all
four `fetch*` adapters map their provider responses into).  String fields
that a provider may leave `undefined`/`null`/empty are `Option String`. -/
structure RawItem where
  title : Option String
  excerpt : Option String
  source_url : Option String
  image_url : Option String
  source_name : String
  author : Option String
  published_at : Int
  api_source : String
deriving DecidableEq, Repr

/-- One object of the parsed oracle JSON array.  Every field may be absent
from the JSON. -/
structure OracleObj where
  bloom_score : Option Int
  category : Option String
  is_weird : Option Bool
  summary : Option String
  tags : Option (List String)
  confidence : Option ℚ
deriving DecidableEq, Repr

/-- A raw item together with the classification fields added by
`classifyBatch`. -/
structure ClassifiedItem where
  raw : RawItem
  bloom_score : Int
  category_name : String
  is_weird : Bool
  ai_summary : Option String
  ai_tags : List String
  ai_confidence : ℚ
deriving DecidableEq, Repr

/-- A row of the `articles` table (the columns read by the pipeline, the
views, and the claims). -/
structure Article where
  id : Nat
  title : String
  excerpt : Option String
  source_url : String
  category_name : String
  bloom_score : Int
  is_weird : Bool
  source_name : String
  published_at : Int
  ai_summary : Option String
  ai_confidence : ℚ
  status : String
  read_time_minutes : Int
  is_featured : Bool
deriving DecidableEq, Repr

/-- The string actually used where the code reads `article.source_url` on
an item that passed the aggregator filter. -/
def urlStr (a : RawItem) : String := a.source_url.getD ""

/-- The string actually used where the code reads `article.title`. -/
def titleStr (a : RawItem) : String := a.title.getD ""

/-- Milliseconds in `h` hours, as in `h * 60 * 60 * 1000`. -/
def hoursMs (h : Int) : Int := h * 60 * 60 * 1000

/-- Character-wise splitting (the semantics of `String.split`, rewritten
by structural recursion on the character list so that the kernel can
evaluate it): one piece between every two adjacent separators, empty
pieces included. -/
def splitChars (p : Char → Bool) : List Char → List (List Char)
  | [] => [[]]
  | c :: cs =>
    if p c then [] :: splitChars p cs
    else
      match splitChars p cs with
      | [] => [[c]]
      | piece :: rest => (c :: piece) :: rest

/-- Lower-casing a string (`String.toLower`, rewritten over the character
list). -/
def lowerStr (t : String) : String := String.mk (t.data.map Char.toLower)

/-- JS `s.split(/\s+/)`: maximal whitespace runs separate the pieces; a
leading (resp. trailing) whitespace run contributes one empty piece at the
front (resp. back); `"".split(/\s+/)` is `[""]`.  Character-wise splitting
instead emits an empty piece between every two adjacent separators, so
interior empties are discarded here. -/
def jsSplitWs (t : String) : List String :=
  if t == "" then [""]
  else
    let raw := (splitChars (fun c => c.isWhitespace) t.data).map String.mk
    let toks := raw.filter (fun w => !(w == ""))
    ((if raw.head? == some "" then [""] else []) ++ toks)
      ++ (if 2 ≤ raw.length && raw.getLast? == some "" then [""] else [])

/-- Title tokenization of `findSimilar`:
`title.toLowerCase().split(/\s+/).filter(w => w.length > 3)`.
(On ASCII text, `String.length` agrees with JS string length.) -/
def tokenize (t : String) : List String :=
  (jsSplitWs (lowerStr t)).filter (fun w => 3 < w.length)

/-- The loop body count `words.filter(w => existingWords.includes(w)).length`:
the number of positions of `ws` whose token occurs in `ex` (repeated
candidate tokens are counted once per occurrence). -/
def overlapCount (ws ex : List String) : Nat :=
  (ws.filter (fun w => ex.contains w)).length

/-- The similarity expression `overlap / Math.max(words.length,
existingWords.length)`.  When both token lists are empty this is `0/0`,
which is `0` in `ℚ`; in JS it is `NaN` — in both cases the `>= threshold`
comparison below is false, so the two semantics agree on every branch the
code takes.  JS computes the quotient in float64; for token counts `n`
below a few hundred the gap between any `k/n` and the threshold `3/5`
far exceeds one ulp, so the rational comparison used here decides every
such case exactly as the float comparison does. -/
def similarity (ws ex : List String) : ℚ :=
  (overlapCount ws ex : ℚ) / ((max ws.length ex.length : Nat) : ℚ)

/-- The query + scan of `isDuplicate`: is there any stored row with this
exact `source_url`? -/
def isDuplicate (db : List Article) (url : String) : Bool :=
  db.any (fun a => a.source_url == url)

/-- The fuzzy title dedup `findSimilar`: restrict the store to rows with
`published_at` within the last 48 hours and `status = 'published'`, then
return the first row whose title-token similarity with the candidate title
reaches the threshold (default `0.6`). -/
def findSimilar (t : String) (db : List Article) (now : Int)
    (threshold : ℚ := 6/10) : Option Article :=
  let words := tokenize t
  let data := db.filter (fun a =>
    decide (now - hoursMs 48 ≤ a.published_at) && (a.status == "published"))
  data.find? (fun ex => decide (threshold ≤ similarity words (tokenize ex.title)))

/-- The classification of one chunk, `classifyBatch`.  The success branch
(`Except.ok cls`) maps each input positionally against `classifications[i]`
with JS `||` per-field defaulting (note: confidence default `0.5` here);
the catch branch (`Except.error`) gives every item of the chunk the
documented defaults with confidence `0`. -/
def classifyBatch (articles : List RawItem) (resp : Except String (List OracleObj)) :
    List ClassifiedItem :=
  match resp with
  | .ok cls =>
    articles.enum.map (fun p =>
      { raw := p.2
        bloom_score := jsOrInt ((cls.get? p.1).bind OracleObj.bloom_score) 3
        category_name := jsOrStr ((cls.get? p.1).bind OracleObj.category) "progress"
        is_weird := jsOrBool ((cls.get? p.1).bind OracleObj.is_weird) false
        ai_summary := jsOrOptStr ((cls.get? p.1).bind OracleObj.summary) p.2.excerpt
        ai_tags := ((cls.get? p.1).bind OracleObj.tags).getD []
        ai_confidence := jsOrQ ((cls.get? p.1).bind OracleObj.confidence) (1/2) })
  | .error _ =>
    articles.map (fun a =>
      { raw := a
        bloom_score := 3
        category_name := "progress"
        is_weird := false
        ai_summary := a.excerpt
        ai_tags := []
        ai_confidence := 0 })

/-- JS `Math.round` (round half toward positive infinity). -/
def jsRound (q : ℚ) : Int := ⌊q + 1/2⌋

/-- The `estimateReadTime` helper: `3` for a missing or empty text, else
`Math.max(2, Math.min(15, Math.round(words / 200)))`. -/
def estimateReadTime (text : Option String) : Int :=
  match text with
  | none => 3
  | some t =>
    if t == "" then 3
    else
      let words : ℚ := ((jsSplitWs t).length : ℚ)
      max 2 (min 15 (jsRound (words / 200)))

/-- The row `storeArticle` inserts (the columns later code reads;
`category_id`/`source_id` resolution and the audit-only columns are
dropped, see the header comment). -/
def mkRecord (c : ClassifiedItem) (nid : Nat) : Article :=
  { id := nid
    title := titleStr c.raw
    excerpt := c.raw.excerpt
    source_url := urlStr c.raw
    category_name := c.category_name
    bloom_score := c.bloom_score
    is_weird := c.is_weird
    source_name := c.raw.source_name
    published_at := c.raw.published_at
    ai_summary := c.ai_summary
    ai_confidence := c.ai_confidence
    status := if config.min_bloom_score ≤ c.bloom_score then "published" else "rejected"
    read_time_minutes := estimateReadTime c.raw.excerpt
    is_featured := false }

/-- Outcome of one `storeArticle` call: `skipped` models the unique
constraint violation `23505` on `source_url`, `inserted published?` a
successful insert. -/
inductive StoreOutcome where
  | skipped : StoreOutcome
  | inserted : Bool → StoreOutcome
deriving DecidableEq, Repr

/-- The `storeArticle` insert against the unique `source_url` key. -/
def storeArticle (db : List Article) (nid : Nat) (c : ClassifiedItem) :
    StoreOutcome × List Article :=
  if isDuplicate db (urlStr c.raw) then (.skipped, db)
  else
    let r := mkRecord c nid
    (.inserted (r.status == "published"), db ++ [r])

/-- The aggregator filter `a.title && a.source_url`. -/
def keepItem (a : RawItem) : Bool := strTruthy a.title && strTruthy a.source_url

/-- The intra-batch exact-URL dedup using the `seen` set: keep an item iff
its URL was not seen before, accumulating seen URLs left to right. -/
def dedupByUrl : List RawItem → List String → List RawItem
  | [], _ => []
  | a :: rest, seen =>
    if urlStr a ∈ seen then dedupByUrl rest seen
    else a :: dedupByUrl rest (urlStr a :: seen)

/-- The aggregator of `run`: filter out items missing title or URL, drop
exact-URL repeats first-seen-wins, cap at `config.max_articles`. -/
def aggregate (items : List RawItem) : List RawItem :=
  (dedupByUrl (items.filter keepItem) []).take config.max_articles

/-- One iteration of the history-dedup loop in `run`: exact URL check
first, then the fuzzy title check, short-circuiting; a match bumps the
`deduplicated` counter and skips the candidate, otherwise the candidate is
appended to `newArticles`. -/
def stepHistory (db : List Article) (now : Int) (acc : List RawItem × Nat)
    (a : RawItem) : List RawItem × Nat :=
  if isDuplicate db (urlStr a) then (acc.1, acc.2 + 1)
  else
    match findSimilar (titleStr a) db now with
    | some _ => (acc.1, acc.2 + 1)
    | none => (acc.1 ++ [a], acc.2)

/-- The whole history-dedup loop: returns (`newArticles`, number of
candidates counted as deduplicated). -/
def historyFilter (db : List Article) (now : Int) (cands : List RawItem) :
    List RawItem × Nat :=
  cands.foldl (stepHistory db now) ([], 0)

/-- The chunking `newArticles.slice(i, i + config.batch_size)` of the
classification loop. -/
def chunkList (l : List RawItem) : List (List RawItem) :=
  match l with
  | [] => []
  | a :: rest => ((a :: rest).take config.batch_size)
      :: chunkList (rest.drop (config.batch_size - 1))
termination_by l.length
decreasing_by simp [config]; omega

/-- Clearing pass of `updateFeatured`: `update({is_featured: false})` on
every row with `is_featured = true`. -/
def clearOne (a : Article) : Article :=
  if a.is_featured then { a with is_featured := false } else a

def clearFeatured (db : List Article) : List Article := db.map clearOne

/-- The `updateFeatured` selection predicate: `status = 'published'` and
`published_at` within the last 24 hours. -/
def featEligible (now : Int) (a : Article) : Bool :=
  (a.status == "published") && decide (now - hoursMs 24 ≤ a.published_at)

/-- The ordering `order by bloom_score desc, published_at desc`. -/
def featRel (a b : Article) : Prop :=
  b.bloom_score < a.bloom_score ∨
    (a.bloom_score = b.bloom_score ∧ b.published_at ≤ a.published_at)

instance : DecidableRel featRel := fun a b => by
  unfold featRel; infer_instance

instance : IsTotal Article featRel := ⟨fun a b => by unfold featRel; omega⟩

instance : IsTrans Article featRel := ⟨fun a b c => by unfold featRel; omega⟩

/-- The rows returned by the `updateFeatured` select: published rows of the
last 24 hours, ordered by bloom score then recency, limited to 3. -/
def featuredSelection (db : List Article) (now : Int) : List Article :=
  (List.insertionSort featRel ((clearFeatured db).filter (featEligible now))).take 3

/-- Setting pass of `updateFeatured`: `update({is_featured: true})` on the
ids of the selection. -/
def setFeatured (ids : List Nat) (a : Article) : Article :=
  if a.id ∈ ids then { a with is_featured := true } else a

/-- The whole `updateFeatured`: clear every featured flag, then set the
flag on the (at most 3) selected ids. -/
def updateFeatured (db : List Article) (now : Int) : List Article :=
  let ids := (featuredSelection db now).map (fun s => s.id)
  (clearFeatured db).map (setFeatured ids)

/-- The `feed_articles` view of the schema: published rows with
`bloom_score >= 3`, newest first. -/
def pubDesc (a b : Article) : Prop := b.published_at ≤ a.published_at

instance : DecidableRel pubDesc := fun a b => by unfold pubDesc; infer_instance

def feedArticles (db : List Article) : List Article :=
  List.insertionSort pubDesc
    (db.filter (fun a => (a.status == "published") && decide ((3:Int) ≤ a.bloom_score)))

/-- The mutable `stats` object of `run` (shape of the `ingestion_log`
row minus `duration_seconds`, which is wall-clock and not modelled). -/
structure Stats where
  fetched : Nat
  classified : Nat
  published : Nat
  rejected : Nat
  deduplicated : Nat
  errors : List String
deriving DecidableEq, Repr

/-- Result of one pipeline run: final stats, final store contents, the
classified items produced, and the `ingestion_log` row if one was written
(`none` models reaching process exit without the audit insert). -/
structure RunResult where
  stats : Stats
  db : List Article
  classifiedItems : List ClassifiedItem
  ingestionLog : Option Stats
deriving DecidableEq, Repr

/-- The storage loop of `run` (step 3): returns the final store and the
increments to the published / rejected / deduplicated counters. -/
def storeLoop : List ClassifiedItem → List Article → Nat →
    List Article × Nat × Nat × Nat
  | [], db, _ => (db, 0, 0, 0)
  | c :: rest, db, nid =>
    match storeArticle db nid c with
    | (.skipped, db1) =>
      let r := storeLoop rest db1 nid
      (r.1, r.2.1, r.2.2.1, r.2.2.2 + 1)
    | (.inserted true, db1) =>
      let r := storeLoop rest db1 (nid + 1)
      (r.1, r.2.1 + 1, r.2.2.1, r.2.2.2)
    | (.inserted false, db1) =>
      let r := storeLoop rest db1 (nid + 1)
      (r.1, r.2.1, r.2.2.1 + 1, r.2.2.2)

/-- The `run` entry point, with every effect passed in: the settled
adapter results (a rejected adapter promise contributes `[]`), the store
contents at run start, the clock, and the oracle's response per chunk
index.  The early `return` on "no new articles" exits `run` before the
`ingestion_log` insert at the bottom of the function, hence
`ingestionLog := none` on that path. -/
def run (adapterResults : List (List RawItem)) (db0 : List Article) (now : Int)
    (oracle : Nat → Except String (List OracleObj)) : RunResult :=
  let candidates := aggregate adapterResults.flatten
  let fetched := candidates.length
  let hist := historyFilter db0 now candidates
  if hist.1.isEmpty then
    { stats := ⟨fetched, 0, 0, 0, hist.2, []⟩, db := db0, classifiedItems := [],
      ingestionLog := none }
  else
    let classified :=
      ((chunkList hist.1).enum.map (fun p => classifyBatch p.2 (oracle p.1))).flatten
    let stored := storeLoop classified db0 db0.length
    let db2 := updateFeatured stored.1 now
    let stats : Stats :=
      ⟨fetched, classified.length, stored.2.1, stored.2.2.1, hist.2 + stored.2.2.2, []⟩
    { stats := stats, db := db2, classifiedItems := classified,
      ingestionLog := some stats }

/-! Concrete inputs used by counterexamples and witnesses. -/

/-- A well-formed adapter item with the given title and URL. -/
def mkItem (t u : String) : RawItem :=
  { title := some t
    excerpt := some "An interesting development was reported."
    source_url := some u
    image_url := none
    source_name := "Wire"
    author := none
    published_at := 0
    api_source := "rss" }

/-- An oracle object giving the stated bloom score (confidence left absent,
as a provider may do). -/
def mkObj (b : Int) : OracleObj :=
  { bloom_score := some b
    category := some "science"
    is_weird := some false
    summary := some "Fine."
    tags := some []
    confidence := none }

/-- Chunk input for the claim C1 analysis: two items. -/
def c1Item1 : RawItem := mkItem "First curious finding announced" "https://s0/c1a"

def c1Item2 : RawItem := mkItem "Second curious finding announced" "https://s0/c1b"

/-- An oracle object carrying a full non-default classification. -/
def c1Obj : OracleObj :=
  { bloom_score := some 5
    category := some "science"
    is_weird := some true
    summary := some "A summary."
    tags := some ["physics", "lab"]
    confidence := none }

/-- The item produced for an input beyond the end of a successfully parsed
oracle array: per-item defaults, confidence `0.5`. -/
def c1Default : ClassifiedItem :=
  { raw := c1Item1
    bloom_score := 3
    category_name := "progress"
    is_weird := false
    ai_summary := c1Item1.excerpt
    ai_tags := []
    ai_confidence := 1/2 }

/-- Claim C2 failing input: the single fetched item exactly duplicates a
stored URL. -/
def c2Item : RawItem := mkItem "Quantum breakthrough reported today" "https://example.org/a"

def c2Rec : Article :=
  { id := 0
    title := "Old unrelated piece entirely"
    excerpt := none
    source_url := "https://example.org/a"
    category_name := "science"
    bloom_score := 4
    is_weird := false
    source_name := "Wire"
    published_at := -100
    ai_summary := none
    ai_confidence := 0
    status := "published"
    read_time_minutes := 3
    is_featured := false }

def c2Run : RunResult := run [[c2Item]] [c2Rec] 0 (fun _ => Except.error "unused")

/-- Claim C3 scenario, first adapter: 5 items. -/
def c3Adapter1 : List RawItem :=
  [ mkItem "item alpha0001 candidate" "https://s1/a1"
  , mkItem "item alpha0002 candidate" "https://s1/a2"
  , mkItem "item alpha0003 candidate" "https://s1/a3"
  , mkItem "item alpha0004 candidate" "https://s1/a4"
  , mkItem "item alpha0005 candidate" "https://s1/a5" ]

/-- The 20-token title of the second item of adapter 3, sharing 13 tokens
with the stored title of `c3Rec2`. -/
def c3TitleB2 : String :=
  "tokaa01 tokaa02 tokaa03 tokaa04 tokaa05 tokaa06 tokaa07 tokaa08 tokaa09 tokaa10 tokaa11 tokaa12 tokaa13 sepbb14 sepbb15 sepbb16 sepbb17 sepbb18 sepbb19 sepbb20"

/-- Claim C3 scenario, third adapter: 7 items, of which the last two repeat
URLs of the first adapter (the 2 exact-URL overlaps), and the second
fuzzy-matches stored history at similarity 13/20 = 0.65. -/
def c3Adapter3 : List RawItem :=
  [ mkItem "item gamma0001 candidate" "https://s3/b1"
  , mkItem c3TitleB2 "https://s3/b2"
  , mkItem "item gamma0003 candidate" "https://s3/b3"
  , mkItem "item gamma0004 candidate" "https://s3/b4"
  , mkItem "item gamma0005 candidate" "https://s3/b5"
  , mkItem "item delta0006 candidate" "https://s1/a1"
  , mkItem "item delta0007 candidate" "https://s1/a2" ]

/-- Stored history for C3: an exact-URL duplicate of the third item of
adapter 1 (too old for the fuzzy window, so it is only an exact match). -/
def c3Rec1 : Article :=
  { id := 0
    title := "stale exact url duplicate"
    excerpt := none
    source_url := "https://s1/a3"
    category_name := "science"
    bloom_score := 4
    is_weird := false
    source_name := "Wire"
    published_at := -(hoursMs 100)
    ai_summary := none
    ai_confidence := 0
    status := "published"
    read_time_minutes := 3
    is_featured := false }

/-- Stored history for C3: a recent published row whose 20-token title
shares 13 tokens with the second item of adapter 3. -/
def c3Rec2 : Article :=
  { id := 1
    title := "tokaa01 tokaa02 tokaa03 tokaa04 tokaa05 tokaa06 tokaa07 tokaa08 tokaa09 tokaa10 tokaa11 tokaa12 tokaa13 tokaa14 tokaa15 tokaa16 tokaa17 tokaa18 tokaa19 tokaa20"
    excerpt := none
    source_url := "https://old/b2x"
    category_name := "science"
    bloom_score := 5
    is_weird := false
    source_name := "Wire"
    published_at := -1000
    ai_summary := none
    ai_confidence := 0
    status := "published"
    read_time_minutes := 3
    is_featured := false }

/-- The C3 oracle: scores [5,4,3,2,1,5,4,3] for the single chunk of 8. -/
def c3Oracle : Nat → Except String (List OracleObj) :=
  fun i => if i = 0 then Except.ok ([5, 4, 3, 2, 1, 5, 4, 3].map mkObj)
           else Except.error "no such chunk"

def c3Run : RunResult := run [c3Adapter1, [], c3Adapter3] [c3Rec1, c3Rec2] 0 c3Oracle

/-- Claim C4 failing input: one fresh item, oracle response not parseable. -/
def c4Item : RawItem := mkItem "Entirely fresh discovery item" "https://s4/fresh"

def c4Run : RunResult := run [[c4Item]] [] 0 (fun _ => Except.error "SyntaxError: Unexpected token")

/-- The similarity of the spec text, computed on token SETS:
size of the intersection of the two deduplicated token sets over the
maximum of the two set sizes. -/
def specTokenSetSimilarity (t1 t2 : String) : ℚ :=
  let s1 := (tokenize t1).dedup
  let s2 := (tokenize t2).dedup
  ((s1.filter (fun w => s2.contains w)).length : ℚ) /
    ((max s1.length s2.length : Nat) : ℚ)

/-- Claim C5 candidate title: the token xray occurs three times, so the
token list has 6 entries while the token set has 4 elements. -/
def c5Title : String := "xray xray xray alph beta gamm"

/-- Claim C5 stored row: recent, published, token set is a subset of the
candidate token set. -/
def c5Rec : Article :=
  { id := 0
    title := "alph beta gamm"
    excerpt := none
    source_url := "https://old/c5"
    category_name := "science"
    bloom_score := 4
    is_weird := false
    source_name := "Wire"
    published_at := 0
    ai_summary := none
    ai_confidence := 0
    status := "published"
    read_time_minutes := 3
    is_featured := false }

def c5Item : RawItem := mkItem c5Title "https://s5/c5new"

/-- A pair of short titles whose list similarity is 3/4. -/
def c5wTitle : String := "alph beta gamm"

def c5wRec : Article := { c5Rec with title := "alph beta gamm zzzz", source_url := "https://old/c5w" }

/-- Claim C6 witness input: a candidate whose URL is already stored. -/
def c6Rec : Article := { c2Rec with source_url := "https://dup/c6" }

def c6Item : RawItem := mkItem "Some perfectly fine candidate" "https://dup/c6"

/-- Claim C8 witness store: four eligible published rows with distinct
bloom scores plus an older record currently flagged featured. -/
def w8r10 : Article :=
  { id := 10, title := "top bloom", excerpt := none, source_url := "https://w8/1"
    category_name := "science", bloom_score := 5, is_weird := false, source_name := "Wire"
    published_at := -100, ai_summary := none, ai_confidence := 0, status := "published"
    read_time_minutes := 3, is_featured := false }

def w8r11 : Article := { w8r10 with id := 11, bloom_score := 4, published_at := -200, source_url := "https://w8/2" }

def w8r12 : Article := { w8r10 with id := 12, bloom_score := 3, published_at := -300, source_url := "https://w8/3" }

def w8r13 : Article := { w8r10 with id := 13, bloom_score := 2, published_at := -400, source_url := "https://w8/4" }

def w8r14 : Article :=
  { w8r10 with
    id := 14
    bloom_score := 5
    published_at := -(hoursMs 30)
    source_url := "https://w8/5"
    is_featured := true }

def w8db : List Article := [w8r10, w8r11, w8r12, w8r13, w8r14]

def w8Feat : Article := { w8r10 with is_featured := true }

/-- A title every token of which is discarded by the length filter. -/
def c10Title : String := "of the a is to"

/-! Helper lemmas shared between claim theorems. -/

/-- The catch branch of `classifyBatch` gives every item of the chunk the
documented defaults, with confidence `0`. -/
theorem classifyBatch_error_mem (articles : List RawItem) (e : String) :
    ∀ c ∈ classifyBatch articles (Except.error e),
      c.bloom_score = 3 ∧ c.category_name = "progress" ∧ c.is_weird = false ∧
      c.ai_summary = c.raw.excerpt ∧ c.ai_tags = [] ∧ c.ai_confidence = 0 := by
  intro c hc
  unfold classifyBatch at hc
  rw [List.mem_map] at hc
  obtain ⟨a, _, rfl⟩ := hc
  exact ⟨rfl, rfl, rfl, rfl, rfl, rfl⟩

/-- In the success branch, an item whose index is beyond the length of the
parsed oracle array gets the per-item defaults, with confidence `0.5`. -/
theorem classifyBatch_ok_default (articles : List RawItem) (cls : List OracleObj)
    (i : Nat) (c : ClassifiedItem)
    (hc : (classifyBatch articles (Except.ok cls)).get? i = some c)
    (hlen : cls.length ≤ i) :
    c.bloom_score = 3 ∧ c.category_name = "progress" ∧ c.is_weird = false ∧
      c.ai_summary = c.raw.excerpt ∧ c.ai_tags = [] ∧ c.ai_confidence = 1/2 := by
  unfold classifyBatch at hc
  rw [List.get?_map, List.get?_enum] at hc
  have hcls : cls.get? i = none := List.get?_eq_none.mpr hlen
  cases ha : articles.get? i with
  | none => rw [ha] at hc; simp at hc
  | some a =>
    rw [ha] at hc
    simp only [Option.map_some'] at hc
    rw [hcls] at hc
    injection hc with hc
    subst hc
    exact ⟨rfl, rfl, rfl, rfl, rfl, rfl⟩

/-- The similarity of an empty candidate token list is `0`. -/
theorem similarity_nil (ex : List String) : similarity [] ex = 0 := by
  unfold similarity overlapCount
  simp

/-! Claim theorems. -/

/-- Claim C1, counterexample: two input items but a successfully parsed
oracle array of only one object (fewer objects than input items).  The
chunk does NOT fall back wholesale: the first item keeps its oracle
classification (bloom 5), so not every item of the chunk carries the
documented fallback defaults. -/
theorem claim_C1_counterexample :
    ([c1Obj] : List OracleObj).length < ([c1Item1, c1Item2] : List RawItem).length ∧
    ¬ (∀ c ∈ classifyBatch [c1Item1, c1Item2] (Except.ok [c1Obj]),
        c.bloom_score = 3 ∧ c.category_name = "progress" ∧ c.is_weird = false ∧
        c.ai_summary = c.raw.excerpt ∧ c.ai_tags = [] ∧ c.ai_confidence = 0) := by
  with_unfolding_all decide

/-- Claim C1, amended: the all-or-nothing chunk fallback (bloom 3,
category progress, oddity false, summary = excerpt, tags empty,
confidence 0) applies exactly when the oracle call throws or its response
cannot be parsed.  When the response parses but holds fewer objects than
input items, only the items beyond the response length receive per-item
defaults, and with confidence 0.5 rather than 0; order misalignment is
not detected at all. -/
theorem claim_C1 :
    (∀ (articles : List RawItem) (e : String),
        ∀ c ∈ classifyBatch articles (Except.error e),
          c.bloom_score = 3 ∧ c.category_name = "progress" ∧ c.is_weird = false ∧
          c.ai_summary = c.raw.excerpt ∧ c.ai_tags = [] ∧ c.ai_confidence = 0) ∧
    (∀ (articles : List RawItem) (cls : List OracleObj) (i : Nat) (c : ClassifiedItem),
        (classifyBatch articles (Except.ok cls)).get? i = some c → cls.length ≤ i →
          c.bloom_score = 3 ∧ c.category_name = "progress" ∧ c.is_weird = false ∧
          c.ai_summary = c.raw.excerpt ∧ c.ai_tags = [] ∧ c.ai_confidence = 1/2) :=
  ⟨classifyBatch_error_mem, classifyBatch_ok_default⟩

/-- Claim C1 witness: a one-item chunk against an empty parsed array gets
the per-item defaults with confidence 0.5. -/
theorem claim_C1_witness :
    (classifyBatch [c1Item1] (Except.ok [])).get? 0 = some c1Default ∧
    ([] : List OracleObj).length ≤ 0 ∧ c1Default.ai_confidence = 1/2 :=
  ⟨rfl, Nat.le_refl 0,
    (claim_C1.2 [c1Item1] [] 0 c1Default rfl (Nat.le_refl 0)).2.2.2.2.2⟩

/-- Claim C2: a run in which the only fetched candidate is deduplicated
against stored history takes the early `return` in `run` before the
`ingestion_log` insert, so the audit record for that run is never
written, contradicting the claim (and the stated intent of the spec). -/
theorem claim_C2 :
    c2Run.ingestionLog = none ∧ c2Run.stats.fetched = 1 ∧
    c2Run.stats.deduplicated = 1 := by
  with_unfolding_all decide

/-- Claim C3, counterexample: in the end-to-end scenario the run stats
record fetched = 10 (the count is taken after intra-batch filtering and
URL dedup) and deduplicated = 2 (intra-batch URL overlaps are dropped
without touching the counter), not fetched = 12 and deduplicated = 4. -/
theorem claim_C3_counterexample :
    c3Run.stats.fetched = 10 ∧ c3Run.stats.deduplicated = 2 ∧
    ¬ (c3Run.stats.fetched = 12 ∧ c3Run.stats.deduplicated = 4) := by
  with_unfolding_all decide

/-- Claim C3, amended: the scenario yields run stats fetched = 10,
classified = 8, published = 6, rejected = 2, deduplicated = 2 (history
matches only), with no errors, and the fuzzy history match indeed fires
at similarity 13/20 = 0.65. -/
theorem claim_C3 :
    similarity (tokenize c3TitleB2) (tokenize c3Rec2.title) = 13/20 ∧
    c3Run.stats = ⟨10, 8, 6, 2, 2, []⟩ ∧
    c3Run.ingestionLog = some ⟨10, 8, 6, 2, 2, []⟩ := by
  with_unfolding_all decide

/-- Claim C4, counterexample: with a fresh item and an unparseable oracle
response, every item of the chunk does receive bloom 3 / category
progress / confidence 0 and the run reaches the audit write, but the run
error list stays empty: the classification failure is only logged to the
console, never pushed onto `stats.errors`. -/
theorem claim_C4_counterexample :
    c4Run.stats.errors = [] ∧
    (∀ c ∈ c4Run.classifiedItems,
      c.bloom_score = 3 ∧ c.category_name = "progress" ∧ c.ai_confidence = 0) ∧
    c4Run.classifiedItems ≠ [] ∧ c4Run.ingestionLog = some c4Run.stats := by
  with_unfolding_all decide

/-- Claim C4, amended: when every oracle call fails to parse, every item
of every chunk receives the documented defaults with confidence 0 and the
run still reaches the audit write (provided any new article survived
dedup), but the run error list receives no entry from the classification
failure — absent storage errors it stays empty. -/
theorem claim_C4 (adapters : List (List RawItem)) (db0 : List Article) (now : Int)
    (m : String) (r : RunResult)
    (hr : r = run adapters db0 now (fun _ => Except.error m)) :
    (∀ c ∈ r.classifiedItems,
      c.bloom_score = 3 ∧ c.category_name = "progress" ∧ c.is_weird = false ∧
      c.ai_summary = c.raw.excerpt ∧ c.ai_tags = [] ∧ c.ai_confidence = 0) ∧
    r.stats.errors = [] ∧
    (r.classifiedItems ≠ [] → r.ingestionLog = some r.stats) := by
  subst hr
  simp only [run]
  split
  · refine ⟨?_, rfl, ?_⟩
    · intro c hc
      simp at hc
    · intro hne
      exact absurd rfl hne
  · refine ⟨?_, rfl, fun _ => rfl⟩
    intro c hc
    simp only [List.mem_flatten, List.mem_map] at hc
    obtain ⟨l, ⟨p, _, rfl⟩, hcl⟩ := hc
    exact classifyBatch_error_mem p.2 m c hcl

/-- Claim C4 witness: the concrete unparseable-response run instantiates
the amended claim. -/
theorem claim_C4_witness :
    c4Run = run [[c4Item]] [] 0 (fun _ => Except.error "SyntaxError: Unexpected token") ∧
    c4Run.stats.errors = [] :=
  ⟨rfl, (claim_C4 [[c4Item]] [] 0 "SyntaxError: Unexpected token" c4Run rfl).2.1⟩

/-- Claim C10: a candidate title with no token longer than 3 characters
never fuzzy-matches anything: the overlap is 0, the similarity expression
is 0 (or 0/0, which compares false against the threshold just as NaN does
in JS), so `findSimilar` scans every row and returns none. -/
theorem claim_C10 (t : String) (db : List Article) (now : Int)
    (ht : tokenize t = []) : findSimilar t db now = none := by
  simp only [findSimilar, ht]
  rw [List.find?_eq_none]
  intro x _
  rw [similarity_nil]
  norm_num

/-- Claim C10 witness: a concrete all-short-token title matches nothing
even against a recent published row with an empty-token title situation. -/
theorem claim_C10_witness :
    tokenize c10Title = [] ∧ findSimilar c10Title [c5wRec] 0 = none :=
  ⟨by decide, claim_C10 c10Title [c5wRec] 0 (by decide)⟩

/-- Claim C5, counterexample: the candidate title repeats the token xray,
so its token LIST has 6 entries while its token SET has 4 elements.
Against the stored title the set-based similarity of the spec formula is
3/4 ≥ 0.6, the stored row is published and within 48 hours, yet the code
similarity is 3/6 = 0.5, `findSimilar` reports no match and the candidate
survives history dedup and reaches the classifier. -/
theorem claim_C5_counterexample :
    (6:ℚ)/10 ≤ specTokenSetSimilarity c5Title c5Rec.title ∧
    c5Rec.status = "published" ∧ (0:Int) - hoursMs 48 ≤ c5Rec.published_at ∧
    findSimilar c5Title [c5Rec] 0 = none ∧
    historyFilter [c5Rec] 0 [c5Item] = ([c5Item], 0) := by
  with_unfolding_all decide

/-- Claim C5, amended: with similarity computed on the token LISTS
(candidate-token occurrences found among the existing tokens, over the
maximum of the two list lengths — this agrees with the set formula
whenever neither title repeats a token), any candidate whose title
reaches similarity 0.6 against some stored row published within the last
48 hours is classified as a duplicate by the history-dedup step and never
reaches the classifier. -/
theorem claim_C5 (t : String) (db : List Article) (now : Int) (ex : Article)
    (hmem : ex ∈ db) (hstat : ex.status = "published")
    (hrec : now - hoursMs 48 ≤ ex.published_at)
    (hsim : 6/10 ≤ similarity (tokenize t) (tokenize ex.title)) :
    (findSimilar t db now).isSome = true ∧
    ∀ (acc : List RawItem × Nat) (a : RawItem), titleStr a = t →
      stepHistory db now acc a = (acc.1, acc.2 + 1) := by
  have hsome : (findSimilar t db now).isSome = true := by
    simp only [findSimilar]
    rw [List.find?_isSome]
    refine ⟨ex, ?_, ?_⟩
    · rw [List.mem_filter]
      refine ⟨hmem, ?_⟩
      rw [Bool.and_eq_true, decide_eq_true_eq, beq_iff_eq]
      exact ⟨hrec, hstat⟩
    · rw [decide_eq_true_eq]
      exact hsim
  refine ⟨hsome, ?_⟩
  intro acc a ha
  unfold stepHistory
  split
  · rfl
  · rw [ha]
    split
    · rfl
    · next heq => rw [heq] at hsome; simp at hsome

/-- Claim C5 witness: a concrete recent published row fuzzy-matched at
similarity 3/4. -/
theorem claim_C5_witness :
    (6:ℚ)/10 ≤ similarity (tokenize c5wTitle) (tokenize c5wRec.title) ∧
    (findSimilar c5wTitle [c5wRec] 0).isSome = true :=
  ⟨by with_unfolding_all decide,
   (claim_C5 c5wTitle [c5wRec] 0 c5wRec (List.mem_cons_self _ _) rfl (by decide)
      (by with_unfolding_all decide)).1⟩

/-- Claim C6: one iteration of the history-dedup loop checks the exact
URL match first (and its outcome is then independent of the clock the
fuzzy check would use, witnessing the short-circuit), then the fuzzy
title match; either match bumps the deduplicated counter by exactly one
and skips the candidate, and only a candidate passing both checks is
appended to the kept list. -/
theorem claim_C6 (db : List Article) (now : Int) (acc : List RawItem × Nat)
    (a : RawItem) :
    (isDuplicate db (urlStr a) = true →
        stepHistory db now acc a = (acc.1, acc.2 + 1)) ∧
    (isDuplicate db (urlStr a) = true → ∀ now2 : Int,
        stepHistory db now2 acc a = stepHistory db now acc a) ∧
    (isDuplicate db (urlStr a) = false → findSimilar (titleStr a) db now ≠ none →
        stepHistory db now acc a = (acc.1, acc.2 + 1)) ∧
    (isDuplicate db (urlStr a) = false → findSimilar (titleStr a) db now = none →
        stepHistory db now acc a = (acc.1 ++ [a], acc.2)) := by
  refine ⟨?_, ?_, ?_, ?_⟩
  · intro h
    unfold stepHistory
    rw [if_pos h]
  · intro h now2
    unfold stepHistory
    rw [if_pos h, if_pos h]
  · intro h hf
    unfold stepHistory
    rw [if_neg (by rw [h]; exact Bool.false_ne_true)]
    cases heq : findSimilar (titleStr a) db now with
    | none => exact absurd heq hf
    | some x => rfl
  · intro h hf
    unfold stepHistory
    rw [if_neg (by rw [h]; exact Bool.false_ne_true)]
    rw [hf]

/-- Claim C6 witness: an exact stored-URL duplicate is counted once and
skipped. -/
theorem claim_C6_witness :
    isDuplicate [c6Rec] (urlStr c6Item) = true ∧
    stepHistory [c6Rec] 0 ([], 0) c6Item = ([], 0 + 1) :=
  ⟨by decide, (claim_C6 [c6Rec] 0 ([], 0) c6Item).1 (by decide)⟩

/-- Claim C7: the stored status is published exactly when the bloom score
reaches the configured minimum; a non-conflicting insert stores the
record regardless of that status (rejected rows are stored too); and
every row of the `feed_articles` view is published with bloom at least 3,
so no rejected row appears in the public feed. -/
theorem claim_C7 :
    (∀ (c : ClassifiedItem) (nid : Nat),
        ((mkRecord c nid).status = "published" ↔
          config.min_bloom_score ≤ c.bloom_score)) ∧
    (∀ (db : List Article) (nid : Nat) (c : ClassifiedItem),
        isDuplicate db (urlStr c.raw) = false →
        (storeArticle db nid c).2 = db ++ [mkRecord c nid]) ∧
    (∀ db : List Article, ∀ a ∈ feedArticles db,
        a.status = "published" ∧ (3:Int) ≤ a.bloom_score ∧ a.status ≠ "rejected") := by
  refine ⟨?_, ?_, ?_⟩
  · intro c nid
    unfold mkRecord
    simp only
    split
    · next h => simp [h]
    · next h =>
      constructor
      · intro habs
        exact absurd habs (by decide)
      · intro hble
        exact absurd hble h
  · intro db nid c h
    unfold storeArticle
    rw [if_neg (by rw [h]; exact Bool.false_ne_true)]
  · intro db a ha
    unfold feedArticles at ha
    rw [List.mem_insertionSort, List.mem_filter] at ha
    obtain ⟨_, hcond⟩ := ha
    rw [Bool.and_eq_true, beq_iff_eq, decide_eq_true_eq] at hcond
    refine ⟨hcond.1, hcond.2, ?_⟩
    rw [hcond.1]
    decide

/-- Claim C7 witness: a concrete non-conflicting insert appends the
record. -/
theorem claim_C7_witness :
    isDuplicate [] (urlStr c1Default.raw) = false ∧
    (storeArticle [] 0 c1Default).2 = [] ++ [mkRecord c1Default 0] :=
  ⟨by decide, claim_C7.2.1 [] 0 c1Default (by decide)⟩

/-! Lemmas about the intra-batch URL dedup, for claim C9. -/

/-- The dedup pass only ever drops items, preserving relative order. -/
theorem dedupByUrl_sublist (l : List RawItem) (seen : List String) :
    List.Sublist (dedupByUrl l seen) l := by
  induction l generalizing seen with
  | nil => simp [dedupByUrl]
  | cons a rest ih =>
    unfold dedupByUrl
    split
    · exact (ih seen).cons a
    · exact (ih _).cons₂ a

/-- The URLs surviving the dedup pass are pairwise distinct and disjoint
from the already-seen set. -/
theorem dedupByUrl_nodup (l : List RawItem) (seen : List String) :
    ((dedupByUrl l seen).map urlStr).Nodup ∧
      ∀ a ∈ dedupByUrl l seen, urlStr a ∉ seen := by
  induction l generalizing seen with
  | nil => simp [dedupByUrl]
  | cons a rest ih =>
    unfold dedupByUrl
    split
    · next h => exact ⟨(ih seen).1, fun b hb => (ih seen).2 b hb⟩
    · next h =>
      have ihs := ih (urlStr a :: seen)
      refine ⟨?_, ?_⟩
      · rw [List.map_cons, List.nodup_cons]
        refine ⟨?_, ihs.1⟩
        intro hmem
        rw [List.mem_map] at hmem
        obtain ⟨b, hb, hub⟩ := hmem
        exact absurd (hub ▸ List.mem_cons_self _ _) (ihs.2 b hb)
      · intro b hb
        rw [List.mem_cons] at hb
        cases hb with
        | inl he => rw [he]; exact h
        | inr hb => exact fun hs => ihs.2 b hb (List.mem_cons_of_mem _ hs)

/-- First-seen-wins: for any URL not already seen, the first surviving
item with that URL is exactly the first item of the input with that
URL. -/
theorem dedupByUrl_find (l : List RawItem) (seen : List String) (u : String)
    (hu : u ∉ seen) :
    (dedupByUrl l seen).find? (fun b => urlStr b == u) =
      l.find? (fun b => urlStr b == u) := by
  induction l generalizing seen with
  | nil => rfl
  | cons a rest ih =>
    unfold dedupByUrl
    split
    · next h =>
      have hne : ¬(urlStr a == u) = true := by
        rw [beq_iff_eq]
        intro he
        exact hu (he ▸ h)
      rw [ih seen hu,
        @List.find?_cons_of_neg _ (fun b => urlStr b == u) a rest hne]
    · next h =>
      by_cases he : urlStr a = u
      · have hp : ((fun b => urlStr b == u) a) = true := by
          rw [beq_iff_eq]; exact he
        rw [@List.find?_cons_of_pos _ (fun b => urlStr b == u) a
            (dedupByUrl rest (urlStr a :: seen)) hp,
          @List.find?_cons_of_pos _ (fun b => urlStr b == u) a rest hp]
      · have hp : ¬((fun b => urlStr b == u) a) = true := by
          rw [beq_iff_eq]; exact he
        rw [@List.find?_cons_of_neg _ (fun b => urlStr b == u) a
            (dedupByUrl rest (urlStr a :: seen)) hp,
          @List.find?_cons_of_neg _ (fun b => urlStr b == u) a rest hp]
        refine ih _ ?_
        rw [List.mem_cons]
        rintro (hx | hx)
        · exact he hx.symm
        · exact hu hx

/-- Claim C9: the aggregator keeps only items with a truthy title and
URL, preserves relative emission order (the result is a sublist of the
input), leaves no duplicate URL, truncates to the configured cap, and
keeps exactly the first occurrence of each URL. -/
theorem claim_C9 (items : List RawItem) :
    (aggregate items).Sublist items ∧
    (∀ a ∈ aggregate items, keepItem a = true) ∧
    ((aggregate items).map urlStr).Nodup ∧
    (aggregate items).length ≤ config.max_articles ∧
    (∀ u : String,
      (dedupByUrl (items.filter keepItem) []).find? (fun b => urlStr b == u) =
        (items.filter keepItem).find? (fun b => urlStr b == u)) := by
  refine ⟨?_, ?_, ?_, ?_, ?_⟩
  · exact ((List.take_sublist _ _).trans (dedupByUrl_sublist _ _)).trans
      (List.filter_sublist _)
  · intro a ha
    have h1 : a ∈ dedupByUrl (items.filter keepItem) [] :=
      (List.take_sublist _ _).mem ha
    exact List.of_mem_filter ((dedupByUrl_sublist _ _).mem h1)
  · unfold aggregate
    rw [List.map_take]
    exact (dedupByUrl_nodup _ _).1.sublist (List.take_sublist _ _)
  · exact List.length_take_le _ _
  · intro u
    exact dedupByUrl_find _ _ u (by simp)

/-- Claim C9 witness: a concrete item survives aggregation and has a
truthy title and URL. -/
theorem claim_C9_witness :
    c1Item1 ∈ aggregate [c1Item1] ∧ keepItem c1Item1 = true :=
  ⟨by decide, (claim_C9 [c1Item1]).2.1 c1Item1 (by decide)⟩

/-! Lemmas about the featured-set update, for claim C8. -/

theorem clearOne_is_featured (a : Article) : (clearOne a).is_featured = false := by
  unfold clearOne
  split
  · rfl
  · next h => simpa using h

theorem clearOne_id (a : Article) : (clearOne a).id = a.id := by
  unfold clearOne; split <;> rfl

theorem setFeatured_id (ids : List Nat) (a : Article) :
    (setFeatured ids a).id = a.id := by
  unfold setFeatured; split <;> rfl

theorem setFeatured_status (ids : List Nat) (a : Article) :
    (setFeatured ids a).status = a.status := by
  unfold setFeatured; split <;> rfl

theorem setFeatured_published_at (ids : List Nat) (a : Article) :
    (setFeatured ids a).published_at = a.published_at := by
  unfold setFeatured; split <;> rfl

theorem setFeatured_bloom_score (ids : List Nat) (a : Article) :
    (setFeatured ids a).bloom_score = a.bloom_score := by
  unfold setFeatured; split <;> rfl

/-- On a row whose flag was cleared, the setting pass flags it exactly
when its id was selected. -/
theorem setFeatured_is_featured (ids : List Nat) (a : Article)
    (h : a.is_featured = false) :
    ((setFeatured ids a).is_featured = true ↔ a.id ∈ ids) := by
  unfold setFeatured
  split
  · next hm => simp [hm]
  · next hm => simp [h, hm]

theorem mem_clearFeatured_is_featured (db : List Article) {x : Article}
    (hx : x ∈ clearFeatured db) : x.is_featured = false := by
  unfold clearFeatured at hx
  rw [List.mem_map] at hx
  obtain ⟨y, _, rfl⟩ := hx
  exact clearOne_is_featured y

theorem clearFeatured_map_id (db : List Article) :
    (clearFeatured db).map (fun a => a.id) = db.map (fun a => a.id) := by
  unfold clearFeatured
  rw [List.map_map]
  congr 1
  funext x
  exact clearOne_id x

/-- The ordering relation transfers along the setting pass, which does
not touch bloom scores or timestamps. -/
theorem featRel_setFeatured (ids : List Nat) {x y : Article}
    (h : featRel x y) : featRel (setFeatured ids x) (setFeatured ids y) := by
  unfold featRel at h ⊢
  rw [setFeatured_bloom_score, setFeatured_bloom_score,
    setFeatured_published_at, setFeatured_published_at]
  exact h

/-- A selected row is an eligible row: published and within the last 24
hours. -/
theorem featuredSelection_mem (db : List Article) (now : Int) {s : Article}
    (hs : s ∈ featuredSelection db now) :
    s ∈ (clearFeatured db).filter (featEligible now) := by
  unfold featuredSelection at hs
  have h1 := (List.take_sublist 3 _).mem hs
  rwa [List.mem_insertionSort] at h1

theorem featEligible_decomp {now : Int} {x : Article}
    (h : featEligible now x = true) :
    x.status = "published" ∧ now - hoursMs 24 ≤ x.published_at := by
  unfold featEligible at h
  rw [Bool.and_eq_true, beq_iff_eq, decide_eq_true_eq] at h
  exact h

/-- Claim C8: on a store with pairwise-distinct row ids, after
`updateFeatured` a row is flagged featured exactly when its id is in the
(at most 3 element) selection of published last-24h rows ordered by bloom
score then recency; every featured row is published and within 24 hours;
any row outside the selection — in particular any previously featured row
outside it — ends up unflagged; and every featured row dominates every
eligible unfeatured row in the (bloom score, published timestamp)
ordering. -/
theorem claim_C8 (db : List Article) (now : Int)
    (hnd : (db.map (fun a => a.id)).Nodup) :
    ∀ a ∈ updateFeatured db now,
      ((a.is_featured = true ↔
          a.id ∈ (featuredSelection db now).map (fun s => s.id)) ∧
       (featuredSelection db now).length ≤ 3 ∧
       (a.is_featured = true →
          a.status = "published" ∧ now - hoursMs 24 ≤ a.published_at) ∧
       (∀ b ∈ updateFeatured db now,
          a.is_featured = true → b.status = "published" →
          now - hoursMs 24 ≤ b.published_at → b.is_featured = false →
          featRel a b)) := by
  intro a ha
  have hnd1 : ((clearFeatured db).map (fun a => a.id)).Nodup := by
    rw [clearFeatured_map_id]; exact hnd
  have hperm := List.perm_insertionSort featRel
    ((clearFeatured db).filter (featEligible now))
  have hsorted := List.sorted_insertionSort featRel
    ((clearFeatured db).filter (featEligible now))
  simp only [updateFeatured, List.mem_map] at ha
  obtain ⟨x, hx, rfl⟩ := ha
  have hxnf : x.is_featured = false := mem_clearFeatured_is_featured db hx
  have hiff : ((setFeatured ((featuredSelection db now).map (fun s => s.id)) x).is_featured
      = true ↔ x.id ∈ (featuredSelection db now).map (fun s => s.id)) :=
    setFeatured_is_featured _ x hxnf
  -- featured implies x is one of the selected rows
  have hkey : ∀ hf : (setFeatured ((featuredSelection db now).map (fun s => s.id)) x).is_featured = true,
      x ∈ featuredSelection db now := by
    intro hf
    have hid := hiff.mp hf
    rw [List.mem_map] at hid
    obtain ⟨s, hs, hsid⟩ := hid
    have hsfil := featuredSelection_mem db now hs
    have hsmem : s ∈ clearFeatured db := List.mem_of_mem_filter hsfil
    have hxs : x = s :=
      List.inj_on_of_nodup_map hnd1 hx hsmem hsid.symm
    rw [hxs]
    exact hs
  refine ⟨?_, ?_, ?_, ?_⟩
  · rw [hiff, setFeatured_id]
  · exact List.length_take_le _ _
  · intro hf
    have hxsel := hkey hf
    have hfil := featuredSelection_mem db now hxsel
    have helig := featEligible_decomp (List.of_mem_filter hfil)
    rw [setFeatured_status, setFeatured_published_at]
    exact helig
  · intro b hb hf hbstat hbpub hbnf
    simp only [updateFeatured, List.mem_map] at hb
    obtain ⟨y, hy, rfl⟩ := hb
    have hynf : y.is_featured = false := mem_clearFeatured_is_featured db hy
    have hynid : y.id ∉ (featuredSelection db now).map (fun s => s.id) := by
      intro hin
      have := (setFeatured_is_featured _ y hynf).mpr hin
      rw [hbnf] at this
      exact Bool.false_ne_true this
    have hyelig : featEligible now y = true := by
      unfold featEligible
      rw [Bool.and_eq_true, beq_iff_eq, decide_eq_true_eq]
      rw [setFeatured_status] at hbstat
      rw [setFeatured_published_at] at hbpub
      exact ⟨hbstat, hbpub⟩
    have hyfil : y ∈ (clearFeatured db).filter (featEligible now) :=
      List.mem_filter.mpr ⟨hy, hyelig⟩
    have hysort : y ∈ List.insertionSort featRel
        ((clearFeatured db).filter (featEligible now)) := by
      rwa [List.mem_insertionSort]
    have hysplit : y ∈ (List.insertionSort featRel
        ((clearFeatured db).filter (featEligible now))).take 3 ∨
        y ∈ (List.insertionSort featRel
        ((clearFeatured db).filter (featEligible now))).drop 3 := by
      rw [← List.mem_append, List.take_append_drop]
      exact hysort
    have hydrop : y ∈ (List.insertionSort featRel
        ((clearFeatured db).filter (featEligible now))).drop 3 := by
      cases hysplit with
      | inl htake =>
        exact absurd (List.mem_map.mpr ⟨y, htake, rfl⟩) hynid
      | inr hdrop => exact hdrop
    have hxtake := hkey hf
    have hpa := List.pairwise_append.mp
      (by rw [List.take_append_drop]
          exact hsorted :
        List.Pairwise featRel
          ((List.insertionSort featRel
            ((clearFeatured db).filter (featEligible now))).take 3 ++
           (List.insertionSort featRel
            ((clearFeatured db).filter (featEligible now))).drop 3))
    exact featRel_setFeatured _ (hpa.2.2 x hxtake y hydrop)

/-- Claim C8 witness: in a concrete store the top-bloom recent row ends
up featured, published and within the last 24 hours. -/
theorem claim_C8_witness :
    w8Feat ∈ updateFeatured w8db 0 ∧ w8Feat.is_featured = true ∧
    (w8Feat.status = "published" ∧ (0:Int) - hoursMs 24 ≤ w8Feat.published_at) :=
  ⟨by with_unfolding_all decide, rfl,
    (claim_C8 w8db 0 (by decide) w8Feat (by with_unfolding_all decide)).2.2.1 rfl⟩

end Newphoria
